import Mathlib

/-!
Verification development for the ISS tracker utility (`tracker.py`).

The program polls a satellite position, accumulates geodetic samples, writes
a live-marker KML file each tick, and on termination exports a tour KML, a
path KML, and launches a viewer.  Below we shallowly embed the pure content
of each routine: the structure of the artifacts each exporter produces, the
TLE lookup over the lines of the elements feed, and the event trace of a
`main` run (fetch, loop ticks, exit handlers).  Machine floats in the source
carry exact decimal literals wherever the claims touch them, so coordinates
and durations are modelled as rationals.
-/

/-- One geodetic observation: `(lat, lon, alt_km)` as appended to the global
`positions` list (tracker.py line 20, appended at line 102). -/
structure GeodeticSample where
  lat : ℚ
  lon : ℚ
  alt : ℚ
deriving DecidableEq, Repr

/-- A KML `LookAt` camera block as built by `simplekml.LookAt(latitude=…,
longitude=…, altitude=…, range=700_000, tilt=0, heading=0)`
(tracker.py lines 43-46 and 59-62). -/
structure LookAt where
  latitude : ℚ
  longitude : ℚ
  altitude : ℚ
  range : ℚ
  tilt : ℚ
  heading : ℚ
deriving DecidableEq, Repr

/-- The point placemark of `track.kml`: name, coordinate list (KML order is
`(lon, lat, alt)`), altitude mode (tracker.py lines 41-42). -/
structure TrackPoint where
  name : String
  coords : List (ℚ × ℚ × ℚ)
  altitudemode : String
deriving DecidableEq, Repr

/-- The self-referencing network link of `track.kml`
(tracker.py lines 47-50). -/
structure NetworkLink where
  name : String
  href : String
  refreshmode : String
  refreshinterval : ℚ
deriving DecidableEq, Repr

/-- The content of the live-marker artifact `track.kml` produced by
`write_track_kml` (tracker.py lines 39-51). -/
structure TrackKml where
  point : TrackPoint
  lookat : LookAt
  networklink : NetworkLink
deriving DecidableEq, Repr

/-- `write_track_kml(lat, lon, alt_km)` (tracker.py lines 39-51): a point
named "ISS" at `(lon, lat, alt_km)` with altitude mode `relativeToGround`,
a look-at block at the sample with range 700000, tilt 0, heading 0, and a
network link to `track.kml` refreshing on interval 5. -/
def write_track_kml (lat lon alt_km : ℚ) : TrackKml :=
  { point := { name := "ISS", coords := [(lon, lat, alt_km)],
               altitudemode := "relativeToGround" }
    lookat := { latitude := lat, longitude := lon, altitude := alt_km,
                range := 700000, tilt := 0, heading := 0 }
    networklink := { name := "ISS Tracker", href := "track.kml",
                     refreshmode := "onInterval", refreshinterval := 5 } }

/-- One playlist entry of the `gx:Tour` in `tour.kml`: either a fly-to step
(`pl.newgxflyto(gxduration=2.0, gxflytomode="bounce")` with a `lookat`) or a
wait step (`pl.newgxwait(gxduration=1.0)`) (tracker.py lines 58-63). -/
inductive TourStep where
  | flyTo (gxduration : ℚ) (gxflytomode : String) (lookat : LookAt)
  | wait (gxduration : ℚ)
deriving DecidableEq, Repr

/-- The look-at block attached to a fly-to step for one sample
(tracker.py lines 59-62). -/
def tourLookAt (s : GeodeticSample) : LookAt :=
  { latitude := s.lat, longitude := s.lon, altitude := s.alt,
    range := 700000, tilt := 0, heading := 0 }

/-- `write_tour_kml()` (tracker.py lines 53-65): for each accumulated
`(lat, lon, alt_km)` in order, append a fly-to step (duration 2.0, mode
"bounce", look-at at the sample) followed by a wait step (duration 1.0).
The playlist is the resulting step list. -/
def write_tour_kml (positions : List GeodeticSample) : List TourStep :=
  positions.flatMap fun s =>
    [TourStep.flyTo 2 "bounce" (tourLookAt s), TourStep.wait 1]

/-- The line geometry of `path.kml` produced by `write_path_kml`
(tracker.py lines 67-76). -/
structure LineString where
  name : String
  coords : List (ℚ × ℚ × ℚ)
  altitudemode : String
  extrude : ℕ
  tessellate : ℕ
deriving DecidableEq, Repr

/-- `write_path_kml()` (tracker.py lines 67-76): one linestring named
"ISS Path" whose coordinates are `(lon, lat, alt)` for each accumulated
`(lat, lon, alt)` in order, altitude mode `relativeToGround`, with
`extrude = 1` and `tessellate = 1`. -/
def write_path_kml (positions : List GeodeticSample) : LineString :=
  { name := "ISS Path"
    coords := positions.map fun s => (s.lon, s.lat, s.alt)
    altitudemode := "relativeToGround"
    extrude := 1
    tessellate := 1 }

/-- The sleep interval of the polling loop: `time.sleep(5)`
(tracker.py line 106). -/
def loopSleepInterval : ℚ := 5

/-- The rounding applied by a fixed-point format specifier `:.df`: round the
value to `d` decimal places.  Used to model the console line
`f"Lat {lat:.4f}°, Lon {lon:.4f}°, Alt {alt_km:.0f} km"`
(tracker.py lines 103-104). -/
def roundDp (q : ℚ) (d : ℕ) : ℚ :=
  (round (q * 10 ^ d) : ℤ) / 10 ^ d

/-- The numeric content of the console log line printed each tick
(tracker.py lines 103-104): latitude and longitude to 4 decimal places,
altitude to 0 decimal places. -/
def consoleLogLine (lat lon alt_km : ℚ) : ℚ × ℚ × ℚ :=
  (roundDp lat 4, roundDp lon 4, roundDp alt_km 0)

/-- How the TLE lookup can fail: `indexError` models Python's `IndexError`
raised by `lines[i+1]` / `lines[i+2]` past the end of the list
(tracker.py line 27); `notFound` models the explicit
`RuntimeError("ISS TLE not found")` (tracker.py line 28). -/
inductive FetchError where
  | indexError
  | notFound
deriving DecidableEq, Repr

/-- A line of the elements feed, as a character list (one element of
`r.text.splitlines()`, tracker.py line 24). -/
abbrev FeedLine := List Char

/-- Python's default whitespace set for `str.strip()`: space, tab, newline,
carriage return, vertical tab, form feed. -/
def isPySpace (c : Char) : Bool :=
  c = ' ' || c = '\t' || c = '\n' || c = '\r' || c = '\x0b' || c = '\x0c'

/-- Python `str.strip()` with no argument: remove leading and trailing
whitespace characters (tracker.py lines 26-27). -/
def pyStrip (s : FeedLine) : FeedLine :=
  ((s.dropWhile isPySpace).reverse.dropWhile isPySpace).reverse

/-- The satellite name matched by the lookup (tracker.py line 26). -/
def issName : FeedLine := "ISS (ZARYA)".data

/-- The header test of the lookup loop: `line.strip().startswith("ISS (ZARYA)")`
(tracker.py line 26).  Python `startswith` tests whether the argument is an
initial segment of the string. -/
def isIssHeader (line : FeedLine) : Bool :=
  issName.isPrefixOf (pyStrip line)

/-- The body of the `for i, line in enumerate(lines)` loop of `fetch_iss_tle`
(tracker.py lines 25-28).  The recursion walks the suffix of the line list
starting at the current index `i`; `lines[i+1]` and `lines[i+2]` are the
first two elements after the current line, and accessing either past the end
of the list raises `IndexError`. -/
def fetchGo : List FeedLine → Except FetchError (FeedLine × FeedLine)
  | [] => .error .notFound
  | l :: ls =>
      if isIssHeader l then
        match ls with
        | a :: b :: _ => .ok (pyStrip a, pyStrip b)
        | _ => .error .indexError
      else fetchGo ls

/-- `fetch_iss_tle()` applied to the lines of the elements feed (tracker.py
lines 22-28, after `r.text.splitlines()`): scan for the first line whose
stripped text starts with `"ISS (ZARYA)"` and return the two following
lines, stripped; raise if no line matches. -/
def fetch_iss_tle (lines : List FeedLine) : Except FetchError (FeedLine × FeedLine) :=
  fetchGo lines

/-- The three exit handlers registered with `atexit.register` in `main`
(tracker.py lines 95-97). -/
inductive ExitHandler where
  | tourExporter
  | pathExporter
  | viewerLauncher
deriving DecidableEq, Repr

/-- The handler registration order of `main` (tracker.py lines 95-97):
`write_tour_kml`, then `write_path_kml`, then `launch_earth`. -/
def registeredHandlers : List ExitHandler :=
  [.tourExporter, .pathExporter, .viewerLauncher]

/-- `atexit` executes registered handlers in last-in-first-out order, i.e.
the reverse of registration order (Python `atexit` semantics). -/
def atexitRunOrder (handlers : List ExitHandler) : List ExitHandler :=
  handlers.reverse

/-- The sequence in which the shutdown actions of `main` actually execute
at process exit: the registered handlers in `atexit`'s LIFO order. -/
def shutdownSequence : List ExitHandler :=
  atexitRunOrder registeredHandlers

/-- An observable file-system / process event of a run: overwriting
`track.kml`, writing `tour.kml`, writing `path.kml`, or launching the
viewer. -/
inductive Event where
  | wroteTrack (kml : TrackKml)
  | wroteTour (playlist : List TourStep)
  | wrotePath (line : LineString)
  | launchedViewer
deriving DecidableEq, Repr

/-- The artifact-write event performed by one exit handler, given the
accumulated positions at exit (tracker.py lines 53-87). -/
def handlerEvent (positions : List GeodeticSample) : ExitHandler → Event
  | .tourExporter => .wroteTour (write_tour_kml positions)
  | .pathExporter => .wrotePath (write_path_kml positions)
  | .viewerLauncher => .launchedViewer

/-- The events of the `RUNNING` loop (tracker.py lines 100-106): each tick
appends its sample to `positions` and overwrites `track.kml` with that
sample. -/
def loopEvents (samples : List GeodeticSample) : List Event :=
  samples.map fun s => .wroteTrack (write_track_kml s.lat s.lon s.alt)

/-- The events of process exit after the loop stops: the registered
handlers run in `atexit` LIFO order over the accumulated positions
(tracker.py lines 95-97 and 107-108). -/
def exitEvents (positions : List GeodeticSample) : List Event :=
  (atexitRunOrder registeredHandlers).map (handlerEvent positions)

/-- A whole run of `main` (tracker.py lines 89-108), parameterised by the
lines of the elements feed and by the finite list of samples the resolver
produces before the operator interrupt.  Returns the process exit code and
the ordered event trace.  If the TLE lookup raises, the exception is
uncaught: the process exits with code 1, no handler was yet registered and
no artifact is touched.  Otherwise the handlers are registered, the loop
runs one tick per sample, the interrupt is caught (exit code 0), and exit
handlers fire. -/
def mainExec (feed : List FeedLine) (samples : List GeodeticSample) :
    ℕ × List Event :=
  match fetch_iss_tle feed with
  | .error _ => (1, [])
  | .ok _ => (0, loopEvents samples ++ exitEvents samples)

/-- `write_tour_kml` on a nonempty sequence: the first sample contributes a
fly-to step then a wait step, followed by the steps of the remaining
samples. -/
theorem write_tour_kml_cons (p : GeodeticSample) (ps : List GeodeticSample) :
    write_tour_kml (p :: ps) =
      TourStep.flyTo 2 "bounce" (tourLookAt p) :: TourStep.wait 1 ::
        write_tour_kml ps := rfl

/-- The playlist holds two steps (one fly-to/wait pair) per sample. -/
theorem write_tour_kml_length (ps : List GeodeticSample) :
    (write_tour_kml ps).length = 2 * ps.length := by
  induction ps with
  | nil => rfl
  | cons p ps ih =>
      rw [write_tour_kml_cons]
      simp only [List.length_cons, ih]
      omega

/-- The step at even index `2*i` of the playlist is the fly-to step of the
`i`-th sample, and the step right after it is the fixed wait step. -/
theorem write_tour_kml_getElem (ps : List GeodeticSample) :
    ∀ (i : ℕ) (s : GeodeticSample), ps[i]? = some s →
      (write_tour_kml ps)[2 * i]? =
          some (TourStep.flyTo 2 "bounce" (tourLookAt s)) ∧
        (write_tour_kml ps)[2 * i + 1]? = some (TourStep.wait 1) := by
  induction ps with
  | nil => intro i s hs; simp at hs
  | cons p ps ih =>
      intro i s hs
      cases i with
      | zero =>
          simp only [List.getElem?_cons_zero, Option.some.injEq] at hs
          subst hs
          simp [write_tour_kml_cons]
      | succ j =>
          rw [List.getElem?_cons_succ] at hs
          have h2 := ih j s hs
          rw [write_tour_kml_cons]
          have e1 : 2 * (j + 1) = 2 * j + 1 + 1 := by omega
          simp only [e1, List.getElem?_cons_succ]
          exact h2

/-- C2: for every sample sequence of length N, the tour playlist has exactly
N fly-to/wait step pairs (2N steps), and the pair at position `i` carries
the look-at of the `i`-th appended sample, in append order. -/
theorem C2_tour_pairs (ps : List GeodeticSample) (i : ℕ) (s : GeodeticSample)
    (hs : ps[i]? = some s) :
    (write_tour_kml ps).length = 2 * ps.length ∧
      (write_tour_kml ps)[2 * i]? =
        some (TourStep.flyTo 2 "bounce" (tourLookAt s)) ∧
      (write_tour_kml ps)[2 * i + 1]? = some (TourStep.wait 1) :=
  ⟨write_tour_kml_length ps, (write_tour_kml_getElem ps i s hs).1,
    (write_tour_kml_getElem ps i s hs).2⟩

/-- Witness for C2: two accumulated samples give a four-step playlist whose
second pair looks at the second sample. -/
theorem C2_tour_pairs_witness :
    ([⟨10, 20, 400⟩, ⟨11, 21, 401⟩] : List GeodeticSample)[1]? =
        some ⟨11, 21, 401⟩ ∧
      ((write_tour_kml [⟨10, 20, 400⟩, ⟨11, 21, 401⟩]).length =
          2 * ([⟨10, 20, 400⟩, ⟨11, 21, 401⟩] : List GeodeticSample).length ∧
        (write_tour_kml [⟨10, 20, 400⟩, ⟨11, 21, 401⟩])[2 * 1]? =
          some (TourStep.flyTo 2 "bounce" (tourLookAt ⟨11, 21, 401⟩)) ∧
        (write_tour_kml [⟨10, 20, 400⟩, ⟨11, 21, 401⟩])[2 * 1 + 1]? =
          some (TourStep.wait 1)) :=
  ⟨by decide, C2_tour_pairs [⟨10, 20, 400⟩, ⟨11, 21, 401⟩] 1 ⟨11, 21, 401⟩ (by decide)⟩

/-- C3: the path linestring has one coordinate tuple per accumulated sample,
the `i`-th tuple being `(lon, lat, alt)` of the `i`-th sample, with the
extrude and tessellate flags both set. -/
theorem C3_path_line (ps : List GeodeticSample) (i : ℕ) (s : GeodeticSample)
    (hs : ps[i]? = some s) :
    (write_path_kml ps).coords.length = ps.length ∧
      (write_path_kml ps).coords[i]? = some (s.lon, s.lat, s.alt) ∧
      (write_path_kml ps).extrude = 1 ∧
      (write_path_kml ps).tessellate = 1 := by
  refine ⟨?_, ?_, rfl, rfl⟩
  · simp [write_path_kml]
  · simp [write_path_kml, List.getElem?_map, hs]

/-- Witness for C3: two samples give a two-point line whose second tuple is
the swapped coordinates of the second sample. -/
theorem C3_path_line_witness :
    ([⟨10, 20, 400⟩, ⟨11, 21, 401⟩] : List GeodeticSample)[1]? =
        some ⟨11, 21, 401⟩ ∧
      ((write_path_kml [⟨10, 20, 400⟩, ⟨11, 21, 401⟩]).coords.length =
          ([⟨10, 20, 400⟩, ⟨11, 21, 401⟩] : List GeodeticSample).length ∧
        (write_path_kml [⟨10, 20, 400⟩, ⟨11, 21, 401⟩]).coords[1]? =
          some (21, 11, 401) ∧
        (write_path_kml [⟨10, 20, 400⟩, ⟨11, 21, 401⟩]).extrude = 1 ∧
        (write_path_kml [⟨10, 20, 400⟩, ⟨11, 21, 401⟩]).tessellate = 1) :=
  ⟨by decide, C3_path_line [⟨10, 20, 400⟩, ⟨11, 21, 401⟩] 1 ⟨11, 21, 401⟩ (by decide)⟩

/-- C4: on an empty accumulated sequence both shutdown exporters still
produce their artifacts — an empty playlist and an empty line with the
flags still set — rather than failing (both embedded exporters are total,
and evaluate as follows on `[]`). -/
theorem C4_empty_sequence_exports :
    write_tour_kml [] = [] ∧
      (write_path_kml []).coords = [] ∧
      (write_path_kml []).extrude = 1 ∧
      (write_path_kml []).tessellate = 1 :=
  ⟨rfl, rfl, rfl, rfl⟩

/-- C5: the refresh interval written into the live-marker artifact on every
tick equals the polling loop's sleep interval, both being 5, with refresh
mode "onInterval". -/
theorem C5_refresh_lockstep (lat lon alt_km : ℚ) :
    (write_track_kml lat lon alt_km).networklink.refreshinterval =
        loopSleepInterval ∧
      (write_track_kml lat lon alt_km).networklink.refreshmode =
        "onInterval" ∧
      loopSleepInterval = 5 :=
  ⟨rfl, rfl, rfl⟩

/-- C8: the live-marker artifact stores exactly the `(lon, lat, alt)` passed
in (hence preserved to any precision, in particular 4 decimal degrees and
whole kilometers), the look-at block repeats the same coordinates, and
rounding the stored coordinates to the console precisions reproduces the
console log line of the same tick. -/
theorem C8_track_round_trip (lat lon alt_km : ℚ) :
    (write_track_kml lat lon alt_km).point.coords = [(lon, lat, alt_km)] ∧
      (write_track_kml lat lon alt_km).lookat.latitude = lat ∧
      (write_track_kml lat lon alt_km).lookat.longitude = lon ∧
      (write_track_kml lat lon alt_km).lookat.altitude = alt_km ∧
      ((write_track_kml lat lon alt_km).point.coords.map fun c =>
          (roundDp c.2.1 4, roundDp c.1 4, roundDp c.2.2 0)) =
        [consoleLogLine lat lon alt_km] :=
  ⟨rfl, rfl, rfl, rfl, rfl⟩

/-- Lines before the first matching header are skipped by the lookup loop. -/
theorem fetchGo_append (pre rest : List FeedLine)
    (hpre : ∀ l ∈ pre, isIssHeader l = false) :
    fetchGo (pre ++ rest) = fetchGo rest := by
  induction pre with
  | nil => rfl
  | cons l pre ih =>
      have hl : isIssHeader l = false := hpre l (by simp)
      have hrec := ih fun x hx => hpre x (by simp [hx])
      simp [fetchGo, hl, hrec]

/-- A line whose stripped text is exactly the satellite name passes the
header test. -/
theorem isIssHeader_of_pyStrip_eq (h : FeedLine) (hh : pyStrip h = issName) :
    isIssHeader h = true := by
  unfold isIssHeader
  rw [hh]
  decide

/-- C6: on a feed whose first matching entry is a header line reading
exactly "ISS (ZARYA)" (up to surrounding whitespace) followed by two data
lines, the lookup returns exactly those two following lines, each stripped
of surrounding whitespace. -/
theorem C6_lookup_returns_trailing_lines (pre : List FeedLine)
    (h a b : FeedLine) (rest : List FeedLine)
    (hpre : ∀ l ∈ pre, isIssHeader l = false)
    (hh : pyStrip h = issName) :
    fetch_iss_tle (pre ++ h :: a :: b :: rest) = .ok (pyStrip a, pyStrip b) := by
  unfold fetch_iss_tle
  rw [fetchGo_append pre _ hpre]
  simp [fetchGo, isIssHeader_of_pyStrip_eq h hh]

/-- Witness for C6: a three-line feed headed by "ISS (ZARYA)" yields the two
data lines with their surrounding whitespace removed. -/
theorem C6_lookup_witness :
    (∀ l ∈ ([] : List FeedLine), isIssHeader l = false) ∧
      pyStrip "ISS (ZARYA)".data = issName ∧
      pyStrip " 1 25544U 98067A ".data = "1 25544U 98067A".data ∧
      fetch_iss_tle
          ["ISS (ZARYA)".data, " 1 25544U 98067A ".data, " 2 25544 51.6 ".data] =
        .ok (pyStrip " 1 25544U 98067A ".data, pyStrip " 2 25544 51.6 ".data) :=
  ⟨by simp, by decide, by decide,
    C6_lookup_returns_trailing_lines [] "ISS (ZARYA)".data
      " 1 25544U 98067A ".data " 2 25544 51.6 ".data [] (by simp) (by decide)⟩

/-- C7: on a feed with no matching header line the lookup raises the
not-found error; `main` then terminates with exit code 1 before the loop,
with an empty event trace — no artifact file is created or modified and no
exit handler runs. -/
theorem C7_no_match_is_fatal (feed : List FeedLine)
    (samples : List GeodeticSample)
    (hfeed : ∀ l ∈ feed, isIssHeader l = false) :
    fetch_iss_tle feed = .error .notFound ∧ mainExec feed samples = (1, []) := by
  have hf : fetch_iss_tle feed = .error .notFound := by
    unfold fetch_iss_tle
    have hres := fetchGo_append feed [] hfeed
    simpa using hres
  exact ⟨hf, by simp [mainExec, hf]⟩

/-- Witness for C7: a one-line feed without the satellite name makes the
whole run fail with code 1 and no events, even with a pending sample. -/
theorem C7_no_match_witness :
    (∀ l ∈ (["NOAA 19".data] : List FeedLine), isIssHeader l = false) ∧
      (fetch_iss_tle ["NOAA 19".data] = .error .notFound ∧
        mainExec ["NOAA 19".data] [⟨1, 2, 3⟩] = (1, [])) :=
  ⟨by decide, C7_no_match_is_fatal ["NOAA 19".data] [⟨1, 2, 3⟩] (by decide)⟩

/-- C9: when the first matching header is the last or second-to-last feed
line, the lookup fails with the index-out-of-range error, which is distinct
from the not-found error; it succeeds exactly when at least two lines
follow the matched header. -/
theorem C9_lookup_needs_two_lines (pre : List FeedLine) (h a : FeedLine)
    (hpre : ∀ l ∈ pre, isIssHeader l = false)
    (hh : isIssHeader h = true) :
    fetch_iss_tle (pre ++ [h]) = .error .indexError ∧
      fetch_iss_tle (pre ++ [h, a]) = .error .indexError ∧
      FetchError.indexError ≠ FetchError.notFound ∧
      ∀ (b c : FeedLine) (rest : List FeedLine),
        fetch_iss_tle (pre ++ h :: b :: c :: rest) =
          .ok (pyStrip b, pyStrip c) := by
  refine ⟨?_, ?_, by decide, ?_⟩
  · unfold fetch_iss_tle
    rw [fetchGo_append pre _ hpre]
    simp [fetchGo, hh]
  · unfold fetch_iss_tle
    rw [fetchGo_append pre _ hpre]
    simp [fetchGo, hh]
  · intro b c rest
    unfold fetch_iss_tle
    rw [fetchGo_append pre _ hpre]
    simp [fetchGo, hh]

/-- Witness for C9: a feed ending at the header line gives the index error,
one further line still gives the index error, and two further lines give
success. -/
theorem C9_lookup_needs_two_lines_witness :
    (∀ l ∈ ([] : List FeedLine), isIssHeader l = false) ∧
      isIssHeader "ISS (ZARYA)".data = true ∧
      (fetch_iss_tle ["ISS (ZARYA)".data] = .error .indexError ∧
        fetch_iss_tle ["ISS (ZARYA)".data, "1 25544U".data] =
          .error .indexError ∧
        FetchError.indexError ≠ FetchError.notFound ∧
        ∀ (b c : FeedLine) (rest : List FeedLine),
          fetch_iss_tle ("ISS (ZARYA)".data :: b :: c :: rest) =
            .ok (pyStrip b, pyStrip c)) :=
  ⟨by simp, by decide,
    C9_lookup_needs_two_lines [] "ISS (ZARYA)".data "1 25544U".data
      (by simp) (by decide)⟩

/-- C10: the header test only requires the stripped line to START with the
satellite name, and the loop returns at the FIRST matching line: any line
with trailing text after the name matches, and later matching entries are
ignored (the trailing `rest` is arbitrary and unused). -/
theorem C10_first_match_wins (pre : List FeedLine) (h a b : FeedLine)
    (rest : List FeedLine)
    (hpre : ∀ l ∈ pre, isIssHeader l = false)
    (hh : issName.isPrefixOf (pyStrip h) = true) :
    fetch_iss_tle (pre ++ h :: a :: b :: rest) = .ok (pyStrip a, pyStrip b) := by
  unfold fetch_iss_tle
  rw [fetchGo_append pre _ hpre]
  have hmatch : isIssHeader h = true := hh
  simp [fetchGo, hmatch]

/-- Witness for C10: the header carries trailing text and a second complete
"ISS (ZARYA)" entry appears later in the feed; the lookup still returns the
lines following the first, decorated header. -/
theorem C10_first_match_wins_witness :
    (∀ l ∈ (["COSMOS 2251".data] : List FeedLine), isIssHeader l = false) ∧
      issName.isPrefixOf (pyStrip "ISS (ZARYA) [+]".data) = true ∧
      fetch_iss_tle
          (["COSMOS 2251".data] ++ "ISS (ZARYA) [+]".data :: "1 first".data ::
            "2 first".data ::
            ["ISS (ZARYA)".data, "1 second".data, "2 second".data]) =
        .ok (pyStrip "1 first".data, pyStrip "2 first".data) :=
  ⟨by decide, by decide,
    C10_first_match_wins ["COSMOS 2251".data] "ISS (ZARYA) [+]".data
      "1 first".data "2 first".data
      ["ISS (ZARYA)".data, "1 second".data, "2 second".data]
      (by decide) (by decide)⟩

/-- The elements feed used to evaluate a successful run of `main`. -/
def exampleFeed : List FeedLine :=
  ["ISS (ZARYA)".data, "1 25544U 98067A".data, "2 25544 51.6416".data]

/-- C1: what the shutdown sequence actually does.  `main` registers the
tour exporter, then the path exporter, then the viewer launcher with the
process-exit hook, which runs handlers in last-in-first-out order: on every
termination of the loop — including one with zero successful iterations —
the viewer is launched FIRST, then the path is written, then the tour.
All three do run unconditionally, but in the reverse of the documented
Tour, Path, Viewer order. -/
theorem C1_shutdown_runs_reversed :
    shutdownSequence =
        [ExitHandler.viewerLauncher, ExitHandler.pathExporter,
          ExitHandler.tourExporter] ∧
      shutdownSequence ≠
        [ExitHandler.tourExporter, ExitHandler.pathExporter,
          ExitHandler.viewerLauncher] ∧
      mainExec exampleFeed [] =
        (0, [Event.launchedViewer, Event.wrotePath (write_path_kml []),
          Event.wroteTour (write_tour_kml [])]) :=
  ⟨rfl, by decide, by decide⟩
